import Mathlib

/-!
Shallow embedding of `nuplan/planning/script/run_ml.py` (DualAD repository).

The file under verification is an orchestration script: it resolves a Hydra
config path from the environment at import time, runs `run_simulation`
(seeding, building a common builder, callbacks, an optional planner-key
removal from the config, runner construction, profiling, execution), asserts
a precondition in `main`, and conditionally cleans up local `s3:` staging
directories after a run.

External builder collaborators (`set_up_common_builder`,
`build_callbacks_worker`, `build_simulation_callbacks`, `build_simulations`,
`run_runners`) are opaque: we record their invocations as events in a trace,
together with the data the script passes to them.  The configuration object
(an OmegaConf `DictConfig`) is modelled by its key set, its struct-lock flag
and the few named options the script reads.
-/

namespace RunML

/-- Planner instances are opaque objects; only their identity matters. -/
abbrev Planner := Nat

/-- The `planners` argument of `run_simulation`:
`None`, a single `AbstractPlanner` instance, or a list of instances. -/
inductive PlannersArg where
  | none : PlannersArg
  | single (p : Planner) : PlannersArg
  | list (ps : List Planner) : PlannersArg
deriving DecidableEq

/-- Python truthiness of the `planners` argument, as used in
`if planners and 'planner' in cfg.keys()`: `None` is falsy, an object
instance is truthy, a list is truthy iff non-empty. -/
def PlannersArg.truthy : PlannersArg → Bool
  | PlannersArg.none => false
  | PlannersArg.single _ => true
  | PlannersArg.list ps => !ps.isEmpty

/-- The `isinstance(planners, AbstractPlanner)` wrap followed by passing
`planners` as `pre_built_planners`: a bare planner becomes a one-element
list, `None` stays `None`, a list passes through unchanged. -/
def PlannersArg.normalize : PlannersArg → Option (List Planner)
  | PlannersArg.none => Option.none
  | PlannersArg.single p => Option.some [p]
  | PlannersArg.list ps => Option.some ps

/-- The `DictConfig` as the script sees it: its key set, the struct-lock
flag toggled by `OmegaConf.set_struct`, and the named options the script
reads (`seed`, `simulation_log_main_path`, `output_dir`). -/
structure Config where
  keys : List String
  struct : Bool
  simulation_log_main_path : Option String
  seed : Nat
  output_dir : String
deriving DecidableEq

/-- Observable steps of the script: calls into the external collaborators
with the data the script hands them, log lines, and the config mutations. -/
inductive Event where
  | seedEverything (seed : Nat) : Event
  | setUpCommonBuilder (profilerName : String) : Event
  | buildCallbacksWorker : Event
  | buildSimulationCallbacks : Event
  | logInfo (msg : String) : Event
  | setStruct (flag : Bool) : Event
  | popPlanner : Event
  | buildSimulations (cfgKeys : List String) (preBuiltPlanners : Option (List Planner)) : Event
  | saveProfiler (profilerName : String) : Event
  | runRunners (profilerName : String) : Event
  | cleanUpS3Artifacts : Event
deriving DecidableEq

/-- Whether an event is a call that receives the given profiler-session
name (`set_up_common_builder`, `save_profiler`, `run_runners`). -/
def Event.usesName : Event → String → Bool
  | Event.setUpCommonBuilder n, s => n == s
  | Event.saveProfiler n, s => n == s
  | Event.runRunners n, s => n == s
  | _, _ => false

/-- Constructor tag of an event, independent of its payload; used to state
ordering properties of a trace whose payloads are symbolic. -/
def Event.tag : Event → Nat
  | Event.seedEverything _ => 0
  | Event.setUpCommonBuilder _ => 1
  | Event.buildCallbacksWorker => 2
  | Event.buildSimulationCallbacks => 3
  | Event.logInfo _ => 4
  | Event.setStruct _ => 5
  | Event.popPlanner => 6
  | Event.buildSimulations _ _ => 7
  | Event.saveProfiler _ => 8
  | Event.runRunners _ => 9
  | Event.cleanUpS3Artifacts => 10

/-- The guard `planners and 'planner' in cfg.keys()`. -/
def popCond (cfg : Config) (planners : PlannersArg) : Bool :=
  planners.truthy && cfg.keys.contains "planner"

/-- Effect on the config of the bracketed removal
`set_struct False; cfg.pop('planner'); set_struct True`. -/
def popCfg (cfg : Config) : Config :=
  { cfg with keys := cfg.keys.erase "planner", struct := true }

/-- `run_simulation(cfg, planners)`.  `hasProfiler` records whether the
common builder returned by `set_up_common_builder` carries a profiler
(`common_builder.profiler`), which is external to this file.  Returns the
trace of observable steps and the final config. -/
def run_simulation (cfg : Config) (planners : PlannersArg) (hasProfiler : Bool) :
    List Event × Config :=
  ([Event.seedEverything cfg.seed,
    Event.setUpCommonBuilder "building_simulation",
    Event.buildCallbacksWorker,
    Event.buildSimulationCallbacks] ++
   (if popCond cfg planners then
      [Event.logInfo "Using pre-instantiated planner. Ignoring planner in config",
       Event.setStruct false, Event.popPlanner, Event.setStruct true]
    else []) ++
   [Event.buildSimulations (if popCond cfg planners then popCfg cfg else cfg).keys
      (PlannersArg.normalize planners)] ++
   (if hasProfiler then [Event.saveProfiler "building_simulation"] else []) ++
   [Event.logInfo "Running simulation...",
    Event.runRunners "running_simulation",
    Event.logInfo "Finished running simulation!"],
   if popCond cfg planners then popCfg cfg else cfg)

/-- `s.startswith(p)` on strings, via the underlying character lists. -/
def strStartsWith (s p : String) : Bool :=
  p.toList.isPrefixOf s.toList

/-- `s.endswith(p)` on strings, via the underlying character lists. -/
def strEndsWith (s p : String) : Bool :=
  p.toList.reverse.isPrefixOf s.toList.reverse

/-- Modelled from the spec: `is_s3_path` lives in
`nuplan.common.utils.s3_utils`, which is not part of the given source; the
spec describes it as "a simple scheme-prefix check on the output directory
path string (e.g., path begins with `s3://`)". -/
def is_s3_path (p : String) : Bool :=
  strStartsWith p "s3://"

/-- First index at which `pat` occurs in `hay` (Python `str.find`, with
`Option.none` for Python's `-1`). -/
def findSub (pat : List Char) : List Char → Option Nat
  | [] => if pat.isPrefixOf ([] : List Char) then Option.some 0 else Option.none
  | c :: t =>
    if pat.isPrefixOf (c :: t) then Option.some 0
    else (findSub pat t).map (· + 1)

/-- `working_path.find(pat)` on strings. -/
def strFind (hay pat : String) : Option Nat :=
  findSub pat.toList hay.toList

/-- The marker substring `s3_dirname` of `clean_up_s3_artifacts`. -/
def s3_dirname : String := "s3:"

/-- `clean_up_s3_artifacts()`, abstracted over the current working
directory: returns the directory tree handed to `rmtree`
(`working_path[: working_path.find("s3:") + len("s3:")]`), or
`Option.none` when the marker is absent and nothing is deleted. -/
def clean_up_s3_artifacts (working_path : String) : Option String :=
  match strFind working_path s3_dirname with
  | Option.none => Option.none
  | Option.some i =>
      Option.some (String.mk (working_path.toList.take (i + s3_dirname.toList.length)))

/-- The marker occurs in `hay` at position `n`. -/
def occursAt (hay : String) (n : Nat) : Prop :=
  s3_dirname.toList.isPrefixOf (hay.toList.drop n) = true

/-- `os.path.join(a, b)` for POSIX paths, two arguments. -/
def joinPath (a b : String) : String :=
  if strStartsWith b "/" then b
  else if a == "" || strEndsWith a "/" then a ++ b
  else a ++ "/" ++ b

/-- `os.path.basename(p)` for POSIX paths: the part after the last slash. -/
def basename (p : String) : String :=
  String.mk ((p.toList.reverse.takeWhile (fun c => c != '/')).reverse)

/-- The module-level resolution of `CONFIG_PATH`, abstracted over the value
of the environment variable `NUPLAN_HYDRA_CONFIG_PATH`:
`os.getenv(..., 'config/simulation')`, re-rooting via
`os.path.join('../../../../', CONFIG_PATH)` when the variable is set, then
appending a `simulation` segment unless the basename already is one. -/
def CONFIG_PATH (envVal : Option String) : String :=
  let p :=
    match envVal with
    | Option.none => "config/simulation"
    | Option.some v => joinPath "../../../../" v
  if basename p = "simulation" then p else joinPath p "simulation"

/-- The module-level `CONFIG_NAME`. -/
def CONFIG_NAME : String := "default_simulation"

/-- `main(cfg)`: asserts `cfg.simulation_log_main_path is None`, runs
`run_simulation(cfg=cfg)` (no planners argument), then calls
`clean_up_s3_artifacts` when `is_s3_path(Path(cfg.output_dir))`.  The
assertion failure is the `Except.error` case. -/
def main (cfg : Config) (hasProfiler : Bool) : Except String (List Event) :=
  match cfg.simulation_log_main_path with
  | Option.some _ =>
      Except.error "Simulation_log_main_path must not be set when running simulation."
  | Option.none =>
      Except.ok ((run_simulation cfg PlannersArg.none hasProfiler).1 ++
        (if is_s3_path cfg.output_dir then [Event.cleanUpS3Artifacts] else []))

/-! ## Concrete configurations used as witnesses -/

/-- A configuration holding a `planner` key, with the log path unset. -/
def cfgA : Config :=
  { keys := ["planner", "other"], struct := true,
    simulation_log_main_path := Option.none, seed := 7, output_dir := "/local/exp1" }

/-- `cfgA` with `simulation_log_main_path` pre-set to a non-null value. -/
def badCfg : Config :=
  { cfgA with simulation_log_main_path := Option.some "/tmp/log" }

/-- `cfgA` with a remote-storage output directory. -/
def cfgS3 : Config :=
  { cfgA with output_dir := "s3://bucket/exp1" }

/-! ## Helper lemmas -/

theorem popCond_none (cfg : Config) : popCond cfg PlannersArg.none = false := by
  simp [popCond, PlannersArg.truthy]

theorem popCond_emptyList (cfg : Config) : popCond cfg (PlannersArg.list []) = false := by
  simp [popCond, PlannersArg.truthy]

theorem popCond_single (cfg : Config) (p : Planner) (hmem : "planner" ∈ cfg.keys) :
    popCond cfg (PlannersArg.single p) = true := by
  simp [popCond, PlannersArg.truthy]
  exact hmem

/-! ## Claims -/

/-- C1, counterexample: the claim says `run_simulation` itself fails before
any builder collaborator when `simulation_log_main_path` is set.  On a
configuration with the path set, `run_simulation` proceeds normally and
calls `set_up_common_builder` (the check lives in `main`, not in
`run_simulation`). -/
theorem C1_counterexample :
    badCfg.simulation_log_main_path = Option.some "/tmp/log" ∧
    Event.setUpCommonBuilder "building_simulation"
      ∈ (run_simulation badCfg PlannersArg.none false).1 ∧
    Event.buildCallbacksWorker ∈ (run_simulation badCfg PlannersArg.none false).1 ∧
    Event.runRunners "running_simulation" ∈ (run_simulation badCfg PlannersArg.none false).1 := by
  refine ⟨rfl, ?_, ?_, ?_⟩ <;> decide

/-- C1, amended: for every configuration whose `simulation_log_main_path`
is non-null, `main` fails with the assertion error before calling
`run_simulation`, hence before any builder collaborator; `run_simulation`
itself performs no such check. -/
theorem C1_main_asserts_log_path_unset (cfg : Config) (hp : Bool) (s : String)
    (h : cfg.simulation_log_main_path = Option.some s) :
    main cfg hp =
      Except.error "Simulation_log_main_path must not be set when running simulation." := by
  unfold main
  rw [h]

/-- Witness for C1 at the concrete configuration `badCfg`. -/
theorem C1_witness :
    main badCfg false =
      Except.error "Simulation_log_main_path must not be set when running simulation." :=
  C1_main_asserts_log_path_unset badCfg false "/tmp/log" rfl

/-- C2: with a single pre-built planner `p` and a config containing a
`planner` key, the key is removed before runner construction and
`build_simulations` receives exactly `[p]` as the pre-built planner list
together with the already-pruned key set. -/
theorem C2_prebuilt_planner_overrides_config (cfg : Config) (planners : PlannersArg)
    (p : Planner) (hp : Bool) (htr : planners.truthy = true)
    (hmem : "planner" ∈ cfg.keys) (hnd : cfg.keys.Nodup) :
    "planner" ∉ (run_simulation cfg planners hp).2.keys ∧
    Event.buildSimulations (cfg.keys.erase "planner") (PlannersArg.normalize planners)
      ∈ (run_simulation cfg planners hp).1 ∧
    "planner" ∉ (run_simulation cfg (PlannersArg.single p) hp).2.keys ∧
    Event.buildSimulations (cfg.keys.erase "planner") (Option.some [p])
      ∈ (run_simulation cfg (PlannersArg.single p) hp).1 := by
  have hc : popCond cfg planners = true := by
    simp [popCond, htr]
    exact hmem
  have hcs := popCond_single cfg p hmem
  refine ⟨?_, ?_, ?_, ?_⟩
  · simp only [run_simulation, hc, if_true, popCfg]
    intro hmem2
    exact ((List.Nodup.mem_erase_iff hnd).mp hmem2).1 rfl
  · simp [run_simulation, hc, popCfg]
  · simp only [run_simulation, hcs, if_true, popCfg]
    intro hmem2
    exact ((List.Nodup.mem_erase_iff hnd).mp hmem2).1 rfl
  · simp [run_simulation, hcs, popCfg, PlannersArg.normalize]

/-- Witness for C2 at `cfgA`, with the non-empty planner list `[1, 2]` for
the general conjuncts and planner `0` for the single-planner conjuncts. -/
theorem C2_witness :
    "planner" ∉ (run_simulation cfgA (PlannersArg.list [1, 2]) true).2.keys ∧
    Event.buildSimulations (cfgA.keys.erase "planner")
        (PlannersArg.normalize (PlannersArg.list [1, 2]))
      ∈ (run_simulation cfgA (PlannersArg.list [1, 2]) true).1 ∧
    "planner" ∉ (run_simulation cfgA (PlannersArg.single 0) true).2.keys ∧
    Event.buildSimulations (cfgA.keys.erase "planner") (Option.some [0])
      ∈ (run_simulation cfgA (PlannersArg.single 0) true).1 :=
  C2_prebuilt_planner_overrides_config cfgA (PlannersArg.list [1, 2]) 0 true
    (by decide) (by decide) (by decide)

/-- C3: with `planners = None`, the configuration is returned unmodified
(the `planner` key is retained), `build_simulations` receives `None` as the
pre-built planner argument, and the normalization step maps `None` to
`None` and an existing list to itself. -/
theorem C3_none_passes_through (cfg : Config) (hp : Bool) (ps : List Planner)
    (hmem : "planner" ∈ cfg.keys) :
    (run_simulation cfg PlannersArg.none hp).2 = cfg ∧
    "planner" ∈ (run_simulation cfg PlannersArg.none hp).2.keys ∧
    Event.buildSimulations cfg.keys Option.none
      ∈ (run_simulation cfg PlannersArg.none hp).1 ∧
    PlannersArg.normalize PlannersArg.none = Option.none ∧
    PlannersArg.normalize (PlannersArg.list ps) = Option.some ps := by
  have hc := popCond_none cfg
  refine ⟨?_, ?_, ?_, rfl, rfl⟩
  · simp [run_simulation, hc]
  · simp only [run_simulation, hc, if_false, Bool.false_eq_true]
    exact hmem
  · simp [run_simulation, hc, PlannersArg.normalize]

/-- Witness for C3 at `cfgA`. -/
theorem C3_witness :
    (run_simulation cfgA PlannersArg.none false).2 = cfgA ∧
    "planner" ∈ (run_simulation cfgA PlannersArg.none false).2.keys ∧
    Event.buildSimulations cfgA.keys Option.none
      ∈ (run_simulation cfgA PlannersArg.none false).1 ∧
    PlannersArg.normalize PlannersArg.none = Option.none ∧
    PlannersArg.normalize (PlannersArg.list [3]) = Option.some [3] :=
  C3_none_passes_through cfgA false [3] (by decide)

/-- C10: an empty planner list is falsy, so the `planner` key is NOT
removed from the config, and `build_simulations` receives the empty list
unchanged as the pre-built planner argument. -/
theorem C10_empty_list_does_not_override (cfg : Config) (hp : Bool)
    (hmem : "planner" ∈ cfg.keys) :
    (run_simulation cfg (PlannersArg.list []) hp).2 = cfg ∧
    "planner" ∈ (run_simulation cfg (PlannersArg.list []) hp).2.keys ∧
    Event.buildSimulations cfg.keys (Option.some [])
      ∈ (run_simulation cfg (PlannersArg.list []) hp).1 := by
  have hc := popCond_emptyList cfg
  refine ⟨?_, ?_, ?_⟩
  · simp [run_simulation, hc]
  · simp only [run_simulation, hc, if_false, Bool.false_eq_true]
    exact hmem
  · simp [run_simulation, hc, PlannersArg.normalize]

/-- Witness for C10 at `cfgA`. -/
theorem C10_witness :
    (run_simulation cfgA (PlannersArg.list []) true).2 = cfgA ∧
    "planner" ∈ (run_simulation cfgA (PlannersArg.list []) true).2.keys ∧
    Event.buildSimulations cfgA.keys (Option.some [])
      ∈ (run_simulation cfgA (PlannersArg.list []) true).1 :=
  C10_empty_list_does_not_override cfgA true (by decide)

/-- Python `str.find` semantics: a returned index is an occurrence of the
pattern and the earliest one. -/
theorem findSub_eq_some (pat : List Char) (hay : List Char) :
    ∀ i, findSub pat hay = Option.some i →
      pat.isPrefixOf (hay.drop i) = true ∧
      ∀ j, j < i → pat.isPrefixOf (hay.drop j) = false := by
  induction hay with
  | nil =>
    intro i h
    unfold findSub at h
    split at h
    · next hpre =>
      injection h with h0
      refine ⟨?_, ?_⟩
      · rw [← h0]
        exact hpre
      · intro j hj
        rw [← h0] at hj
        exact absurd hj (Nat.not_lt_zero j)
    · exact absurd h (Option.noConfusion)
  | cons c t ih =>
    intro i h
    unfold findSub at h
    split at h
    · next hpre =>
      injection h with h0
      refine ⟨?_, ?_⟩
      · rw [← h0]
        exact hpre
      · intro j hj
        rw [← h0] at hj
        exact absurd hj (Nat.not_lt_zero j)
    · next hnpre =>
      rcases Option.map_eq_some'.mp h with ⟨i', hi', rfl⟩
      rcases ih i' hi' with ⟨h1, h2⟩
      refine ⟨?_, ?_⟩
      · rw [List.drop_succ_cons]
        exact h1
      · intro j hj
        match j with
        | 0 =>
          simp only [List.drop_zero]
          exact Bool.eq_false_iff.mpr hnpre
        | Nat.succ j' =>
          rw [List.drop_succ_cons]
          exact h2 j' (Nat.lt_of_succ_lt_succ hj)

/-- C4: on a working directory containing the marker `s3:`, the cleaner
removes exactly the prefix up to and including the marker (concretely,
`/tmp/run123/s3:` for `/tmp/run123/s3:/exp1/job1`); without the marker it
deletes nothing (and, being total, raises nothing). -/
theorem C4_cleaner_deletes_marked_tree (cwd : String) (i : Nat) :
    clean_up_s3_artifacts "/tmp/run123/s3:/exp1/job1" = Option.some "/tmp/run123/s3:" ∧
    clean_up_s3_artifacts "/tmp/run123/local/exp1" = Option.none ∧
    (strFind cwd s3_dirname = Option.some i →
      clean_up_s3_artifacts cwd = Option.some (String.mk (cwd.toList.take (i + 3)))) ∧
    (strFind cwd s3_dirname = Option.none → clean_up_s3_artifacts cwd = Option.none) := by
  refine ⟨by decide, by decide, ?_, ?_⟩
  · intro h
    unfold clean_up_s3_artifacts
    rw [h]
    rfl
  · intro h
    unfold clean_up_s3_artifacts
    rw [h]

/-- Witness for C4 at two concrete working directories. -/
theorem C4_witness :
    clean_up_s3_artifacts "/a/s3:" = Option.some (String.mk ("/a/s3:".toList.take (3 + 3))) ∧
    clean_up_s3_artifacts "/x/y" = Option.none :=
  ⟨(C4_cleaner_deletes_marked_tree "/a/s3:" 3).2.2.1 (by decide),
   (C4_cleaner_deletes_marked_tree "/x/y" 0).2.2.2 (by decide)⟩

/-- C9: the index used by the cleaner is the first occurrence of the
marker: the deleted prefix ends at an occurrence of `s3:` before which no
earlier occurrence exists. -/
theorem C9_first_marker_occurrence (cwd : String) (i : Nat)
    (h : strFind cwd s3_dirname = Option.some i) :
    clean_up_s3_artifacts cwd = Option.some (String.mk (cwd.toList.take (i + 3))) ∧
    occursAt cwd i ∧ ∀ j, j < i → ¬ occursAt cwd j := by
  have hfs := findSub_eq_some s3_dirname.toList cwd.toList i h
  refine ⟨?_, hfs.1, ?_⟩
  · unfold clean_up_s3_artifacts
    rw [h]
    rfl
  · intro j hj hocc
    have hfalse := hfs.2 j hj
    unfold occursAt at hocc
    rw [hfalse] at hocc
    exact Bool.false_ne_true hocc

/-- Witness for C9 on a working directory with two `s3:` occurrences
(indices 3 and 9): the first one, at index 3, is used. -/
theorem C9_witness :
    clean_up_s3_artifacts "/a/s3:/b/s3:/c" =
      Option.some (String.mk ("/a/s3:/b/s3:/c".toList.take (3 + 3))) ∧
    occursAt "/a/s3:/b/s3:/c" 3 ∧
    ¬ occursAt "/a/s3:/b/s3:/c" 0 :=
  ⟨(C9_first_marker_occurrence "/a/s3:/b/s3:/c" 3 (by decide)).1,
   (C9_first_marker_occurrence "/a/s3:/b/s3:/c" 3 (by decide)).2.1,
   (C9_first_marker_occurrence "/a/s3:/b/s3:/c" 3 (by decide)).2.2 0 (by decide)⟩

/-- The run itself never emits a cleanup event; cleanup can only come from
the conditional tail appended by `main`. -/
theorem cleanUp_not_in_run_simulation (cfg : Config) (planners : PlannersArg) (hp : Bool) :
    Event.cleanUpS3Artifacts ∉ (run_simulation cfg planners hp).1 := by
  cases hc : popCond cfg planners <;> cases hp <;> simp [run_simulation, hc]

/-- C5: after a successful run, `main` invokes the artifact cleaner if and
only if `is_s3_path` holds of the output directory; in particular it does
for `s3://bucket/exp1` and does not for `/local/exp1`. -/
theorem C5_cleanup_iff_s3_output (cfg : Config) (hp : Bool) (tr : List Event)
    (h : cfg.simulation_log_main_path = Option.none)
    (htr : main cfg hp = Except.ok tr) :
    (Event.cleanUpS3Artifacts ∈ tr ↔ is_s3_path cfg.output_dir = true) ∧
    is_s3_path "s3://bucket/exp1" = true ∧
    is_s3_path "/local/exp1" = false := by
  refine ⟨?_, by decide, by decide⟩
  unfold main at htr
  rw [h] at htr
  injection htr with htr'
  subst htr'
  constructor
  · intro hm
    rcases List.mem_append.mp hm with hm1 | hm2
    · exact absurd hm1 (cleanUp_not_in_run_simulation cfg PlannersArg.none hp)
    · cases hs : is_s3_path cfg.output_dir
      · rw [hs] at hm2
        simp at hm2
      · rfl
  · intro hs
    rw [hs]
    simp

/-- Witness for C5 at the remote-output configuration `cfgS3` and the
local-output configuration `cfgA`. -/
theorem C5_witness :
    ((Event.cleanUpS3Artifacts ∈
        (run_simulation cfgS3 PlannersArg.none false).1 ++ [Event.cleanUpS3Artifacts] ↔
      is_s3_path cfgS3.output_dir = true) ∧
     is_s3_path "s3://bucket/exp1" = true ∧ is_s3_path "/local/exp1" = false) ∧
    ((Event.cleanUpS3Artifacts ∈ (run_simulation cfgA PlannersArg.none false).1 ↔
      is_s3_path cfgA.output_dir = true) ∧
     is_s3_path "s3://bucket/exp1" = true ∧ is_s3_path "/local/exp1" = false) :=
  ⟨C5_cleanup_iff_s3_output cfgS3 false _ rfl rfl,
   C5_cleanup_iff_s3_output cfgA false _ rfl rfl⟩

/-- C6: with the environment override set, `CONFIG_PATH` is the override
joined onto `../../../../`, with a `simulation` segment appended exactly
when the basename is not already `simulation`; without the override the
default `config/simulation` is used unchanged, and `CONFIG_NAME` is
`default_simulation`. -/
theorem C6_config_path_resolution (v w : String)
    (hne : basename (joinPath "../../../../" v) ≠ "simulation")
    (heq : basename (joinPath "../../../../" w) = "simulation") :
    CONFIG_PATH (Option.some v) = joinPath (joinPath "../../../../" v) "simulation" ∧
    CONFIG_PATH (Option.some w) = joinPath "../../../../" w ∧
    CONFIG_PATH Option.none = "config/simulation" ∧
    CONFIG_NAME = "default_simulation" ∧
    CONFIG_PATH (Option.some "custom/config/path") =
      "../../../../custom/config/path/simulation" := by
  refine ⟨?_, ?_, by decide, rfl, by decide⟩
  · unfold CONFIG_PATH
    exact if_neg hne
  · unfold CONFIG_PATH
    exact if_pos heq

/-- Witness for C6 with the override values `custom/config/path` (gets a
`simulation` segment appended) and `x/simulation` (kept as is). -/
theorem C6_witness :
    CONFIG_PATH (Option.some "custom/config/path") =
      joinPath (joinPath "../../../../" "custom/config/path") "simulation" ∧
    CONFIG_PATH (Option.some "x/simulation") = joinPath "../../../../" "x/simulation" ∧
    CONFIG_PATH Option.none = "config/simulation" ∧
    CONFIG_NAME = "default_simulation" ∧
    CONFIG_PATH (Option.some "custom/config/path") =
      "../../../../custom/config/path/simulation" :=
  C6_config_path_resolution "custom/config/path" "x/simulation" (by decide) (by decide)

/-- C7: with a profiler present, the `building_simulation` profiling
session is saved exactly once, strictly after the `build_simulations` call
and strictly before `run_runners`; the builder calls
(`set_up_common_builder`, `build_callbacks_worker`,
`build_simulation_callbacks`, `build_simulations`) all precede it; and the
`running_simulation` session name is passed only to the `run_runners`
call.  Stated on the constructor tags of the trace (`Event.tag`): 1 =
setUpCommonBuilder, 2 = buildCallbacksWorker, 3 = buildSimulationCallbacks,
7 = buildSimulations, 8 = saveProfiler, 9 = runRunners. -/
theorem C7_profiling_brackets (cfg : Config) (planners : PlannersArg) :
    ((run_simulation cfg planners true).1.map Event.tag).count 8 = 1 ∧
    ((run_simulation cfg planners true).1.map Event.tag).count 9 = 1 ∧
    ((run_simulation cfg planners true).1.map Event.tag).indexOf 7 <
      ((run_simulation cfg planners true).1.map Event.tag).indexOf 8 ∧
    ((run_simulation cfg planners true).1.map Event.tag).indexOf 8 <
      ((run_simulation cfg planners true).1.map Event.tag).indexOf 9 ∧
    ((run_simulation cfg planners true).1.map Event.tag).indexOf 1 <
      ((run_simulation cfg planners true).1.map Event.tag).indexOf 7 ∧
    ((run_simulation cfg planners true).1.map Event.tag).indexOf 2 <
      ((run_simulation cfg planners true).1.map Event.tag).indexOf 7 ∧
    ((run_simulation cfg planners true).1.map Event.tag).indexOf 3 <
      ((run_simulation cfg planners true).1.map Event.tag).indexOf 7 ∧
    (run_simulation cfg planners true).1.filter
        (fun e => Event.usesName e "running_simulation") =
      [Event.runRunners "running_simulation"] := by
  cases hc : popCond cfg planners <;>
    simp [run_simulation, hc, Event.tag, Event.usesName, List.count_cons, List.indexOf] <;>
    decide

/-- Witness for C7 at the concrete configuration `cfgA`. -/
theorem C7_witness :
    ((run_simulation cfgA PlannersArg.none true).1.map Event.tag).count 8 = 1 ∧
    ((run_simulation cfgA PlannersArg.none true).1.map Event.tag).count 9 = 1 ∧
    ((run_simulation cfgA PlannersArg.none true).1.map Event.tag).indexOf 7 <
      ((run_simulation cfgA PlannersArg.none true).1.map Event.tag).indexOf 8 ∧
    ((run_simulation cfgA PlannersArg.none true).1.map Event.tag).indexOf 8 <
      ((run_simulation cfgA PlannersArg.none true).1.map Event.tag).indexOf 9 ∧
    ((run_simulation cfgA PlannersArg.none true).1.map Event.tag).indexOf 1 <
      ((run_simulation cfgA PlannersArg.none true).1.map Event.tag).indexOf 7 ∧
    ((run_simulation cfgA PlannersArg.none true).1.map Event.tag).indexOf 2 <
      ((run_simulation cfgA PlannersArg.none true).1.map Event.tag).indexOf 7 ∧
    ((run_simulation cfgA PlannersArg.none true).1.map Event.tag).indexOf 3 <
      ((run_simulation cfgA PlannersArg.none true).1.map Event.tag).indexOf 7 ∧
    (run_simulation cfgA PlannersArg.none true).1.filter
        (fun e => Event.usesName e "running_simulation") =
      [Event.runRunners "running_simulation"] :=
  C7_profiling_brackets cfgA PlannersArg.none

/-- C8: the configuration is mutated at most once.  Its scalar options are
always preserved; when the pop guard holds, exactly the `planner` key is
removed, the struct flag ends re-locked, and the removal sits inside the
contiguous `set_struct False` / `pop` / `set_struct True` bracket of the
trace; when the guard fails, the configuration is returned untouched and
no `set_struct` or `pop` step occurs at all. -/
theorem C8_single_bracketed_mutation (cfg : Config) (planners : PlannersArg) (hp : Bool) :
    ((run_simulation cfg planners hp).2.seed = cfg.seed ∧
     (run_simulation cfg planners hp).2.output_dir = cfg.output_dir ∧
     (run_simulation cfg planners hp).2.simulation_log_main_path =
       cfg.simulation_log_main_path) ∧
    (popCond cfg planners = true →
      (run_simulation cfg planners hp).2.keys = cfg.keys.erase "planner" ∧
      (run_simulation cfg planners hp).2.struct = true ∧
      List.IsInfix [Event.setStruct false, Event.popPlanner, Event.setStruct true]
        (run_simulation cfg planners hp).1) ∧
    (popCond cfg planners = false →
      (run_simulation cfg planners hp).2 = cfg ∧
      Event.popPlanner ∉ (run_simulation cfg planners hp).1 ∧
      (∀ b, Event.setStruct b ∉ (run_simulation cfg planners hp).1)) := by
  refine ⟨?_, ?_, ?_⟩
  · cases hc : popCond cfg planners <;> simp [run_simulation, hc, popCfg]
  · intro hc
    refine ⟨?_, ?_, ?_⟩
    · simp [run_simulation, hc, popCfg]
    · simp [run_simulation, hc, popCfg]
    · refine ⟨[Event.seedEverything cfg.seed, Event.setUpCommonBuilder "building_simulation",
        Event.buildCallbacksWorker, Event.buildSimulationCallbacks,
        Event.logInfo "Using pre-instantiated planner. Ignoring planner in config"],
        [Event.buildSimulations (popCfg cfg).keys (PlannersArg.normalize planners)] ++
          (if hp then [Event.saveProfiler "building_simulation"] else []) ++
          [Event.logInfo "Running simulation...", Event.runRunners "running_simulation",
           Event.logInfo "Finished running simulation!"], ?_⟩
      simp [run_simulation, hc]
  · intro hc
    refine ⟨?_, ?_, ?_⟩ <;> simp [run_simulation, hc]

/-- Witness for C8: at `cfgA` with a single pre-built planner the bracketed
removal happens; at `cfgA` with no planners the configuration is untouched
and no pop step occurs. -/
theorem C8_witness :
    ((run_simulation cfgA (PlannersArg.single 0) false).2.keys = cfgA.keys.erase "planner" ∧
     (run_simulation cfgA (PlannersArg.single 0) false).2.struct = true ∧
     List.IsInfix [Event.setStruct false, Event.popPlanner, Event.setStruct true]
       (run_simulation cfgA (PlannersArg.single 0) false).1) ∧
    (run_simulation cfgA PlannersArg.none false).2 = cfgA ∧
    Event.popPlanner ∉ (run_simulation cfgA PlannersArg.none false).1 :=
  ⟨(C8_single_bracketed_mutation cfgA (PlannersArg.single 0) false).2.1 (by decide),
   ((C8_single_bracketed_mutation cfgA PlannersArg.none false).2.2 (by decide)).1,
   ((C8_single_bracketed_mutation cfgA PlannersArg.none false).2.2 (by decide)).2.1⟩

end RunML
